import Mathlib

/-!
Verification development for the mcp-mail-server repository.

The definitions below are a shallow embedding of the TypeScript source:

* `src/index.ts` — federated multi-mailbox search (`searchInMultipleMailboxes`,
  `filterMessagesByDateRange`, `isDateOnly`), reply detection
  (`detectUnrepliedMessagesAdvanced`, `isMessageReplied`,
  `isLikelyReplyByContent`, `cleanReplySubject`), the reply composer inside
  `handleReplyToEmail`, `handleSendEmail`, and `saveSentMessage`;
* `src/imap-client.ts` — the message-normalization tail of `fetchMessages`.

Modelling conventions:

* JavaScript `Date` values attached to messages are modelled by `JsDate`:
  `missing` (the field is absent or the empty string, i.e. falsy),
  `invalid` (present but `new Date(...)` yields an Invalid Date / NaN time),
  or `valid t` with `t` the millisecond timestamp.  Comparisons against a
  NaN time are false in JavaScript; `JsDate.time` returns `none` there.
* JavaScript string falsiness (`s || d` picks `d` for `undefined` and `""`)
  is modelled by `jsOr` / `jsTruthy` over `Option String`.
* Host-platform date-string parsing (`new Date(string)`) is not repository
  code; it is passed in as an explicit `parseDate : String → Option Int`
  parameter (`none` models an unparseable string).  Likewise
  `toLocaleString` is abstracted as a formatting parameter.
* The IMAP server is abstracted as an oracle `ImapEnv`: `openBox` says
  whether opening a mailbox succeeds, and `searchAndFetch` is the combined
  outcome of the open/search/fetch sequence the source performs per mailbox
  inside one `try` block (an `Except.error e` models a thrown error with
  message `e`).
-/

namespace MailServer

/-- Representation of the date value carried by a message, as seen by
`new Date(msg.date)` in the source: absent/falsy, unparseable, or a
millisecond timestamp. -/
inductive JsDate where
  | missing
  | invalid
  | valid (t : Int)
  deriving DecidableEq, Repr

/-- Millisecond timestamp of a message date; `none` models the NaN time of a
missing or invalid date. -/
def JsDate.time : JsDate → Option Int
  | .missing => none
  | .invalid => none
  | .valid t => some t

/-- Boolean test `new Date(a) > new Date(b)`; any comparison involving a NaN
time is false in JavaScript. -/
def jsAfter (a b : JsDate) : Bool :=
  match a.time, b.time with
  | some x, some y => decide (y < x)
  | _, _ => false

/-- JavaScript `o || d` on an optional string: `undefined` and `""` are
falsy. -/
def jsOr (o : Option String) (d : String) : String :=
  match o with
  | some s => if s = "" then d else s
  | none => d

/-- JavaScript truthiness of an optional string. -/
def jsTruthy (o : Option String) : Bool :=
  match o with
  | some s => decide (s ≠ "")
  | none => false

/-- Canonical message record, after `src/imap-client.ts` `EmailMessage`
(uid, flags, date, size, subject, from, to, cc, bcc, text), extended with
the `sourceMailbox` tag that `searchInMultipleMailboxes` attaches and the
`html` field that the reply composer reads (never set by the fetch path,
hence defaulted to `none`).  The `from` field is named `fromAddr` because
`from` is a Lean keyword; `to` is likewise reserved, hence `toAddr`. -/
structure EmailMessage where
  uid : Nat
  id : Option Nat := none
  flags : List String := []
  date : JsDate
  size : Nat := 0
  subject : String
  fromAddr : String := ""
  toAddr : String := ""
  cc : Option String := none
  bcc : Option String := none
  text : Option String := none
  html : Option String := none
  sourceMailbox : String := ""
  deriving DecidableEq, Repr

/-- JavaScript `toLowerCase`, for the ASCII range the source compares on
(character-wise `Char.toLower`). -/
def lowerStr (s : String) : String :=
  ⟨s.data.map Char.toLower⟩

/-- First `n` characters of a string (JavaScript-style slicing, on
characters). -/
def strTake (s : String) (n : Nat) : String :=
  ⟨s.data.take n⟩

/-- String without its first `n` characters. -/
def strDrop (s : String) (n : Nat) : String :=
  ⟨s.data.drop n⟩

/-- Drop the longest prefix of characters satisfying `p`. -/
def strDropWhile (p : Char → Bool) (s : String) : String :=
  ⟨s.data.dropWhile p⟩

/-- Both-ends whitespace trim on a character list. -/
def listTrim (l : List Char) : List Char :=
  ((l.dropWhile Char.isWhitespace).reverse.dropWhile Char.isWhitespace).reverse

/-- JavaScript `s.trim()`. -/
def trimStr (s : String) : String :=
  ⟨listTrim s.data⟩

/-- Splitting worker: emits the accumulated fragment at each separator
(JavaScript `split` keeps empty fragments). -/
def splitPredAux (p : Char → Bool) : List Char → List Char → List String
  | [], acc => [⟨acc.reverse⟩]
  | c :: t, acc =>
    if p c then ⟨acc.reverse⟩ :: splitPredAux p t []
    else splitPredAux p t (c :: acc)

/-- JavaScript `s.split(sep)` for a one-character separator class. -/
def splitPred (p : Char → Bool) (s : String) : List String :=
  splitPredAux p s.data []

/-- Global, non-overlapping, left-to-right replacement on character lists
(JavaScript `replace` with a `/g` pattern). -/
def replaceList (pat repl : List Char) : List Char → List Char
  | [] => []
  | c :: t =>
    if pat.isPrefixOf (c :: t) ∧ pat ≠ [] then
      repl ++ replaceList pat repl (t.drop (pat.length - 1))
    else c :: replaceList pat repl t
termination_by l => l.length
decreasing_by
  · simp only [List.length_cons]
    have := List.length_drop (pat.length - 1) t
    omega
  · simp

/-- JavaScript `s.replace(pat, repl)` with a global pattern. -/
def strReplace (s pat repl : String) : String :=
  ⟨replaceList pat.data repl.data s.data⟩

/-- Join a list of strings with a separator (JavaScript `Array.join`). -/
def joinWith (sep : String) : List String → String
  | [] => ""
  | [x] => x
  | x :: t => x ++ sep ++ joinWith sep t

/-- Source `cleanReplySubject` helper step: the single (non-global) regex
replace of `/^(re:|RE:|回复:|答复:)\s*/i` by the empty string.  The `re:`
alternative is case-insensitive; `\s*` removes the whitespace following the
marker. -/
def stripReplyMarker (s : String) : String :=
  if lowerStr (strTake s 3) = "re:" then strDropWhile Char.isWhitespace (strDrop s 3)
  else if strTake s 3 = "回复:" then strDropWhile Char.isWhitespace (strDrop s 3)
  else if strTake s 3 = "答复:" then strDropWhile Char.isWhitespace (strDrop s 3)
  else s

/-- Source `cleanReplySubject` (src/index.ts): empty subject maps to `""`;
otherwise strip one leading reply marker and trim. -/
def cleanReplySubject (subject : String) : String :=
  if subject = "" then "" else trimStr (stripReplyMarker subject)

/-- Substring occurrence on character lists (JavaScript
`String.prototype.includes`). -/
def listContainsSub (pat : List Char) : List Char → Bool
  | [] => pat.isEmpty
  | c :: t => pat.isPrefixOf (c :: t) || listContainsSub pat t

/-- JavaScript `s.includes(pat)`. -/
def strContains (s pat : String) : Bool :=
  listContainsSub pat.data s.data

/-- Source keyword extraction `subject.split(/\s+/).filter(w => w.length > 3)`.
Splitting at every whitespace character and then filtering by length gives
the same list as splitting at whitespace runs, since the empty fragments
produced between adjacent separators are removed by the length filter. -/
def subjectWords (s : String) : List String :=
  (splitPred (fun c => c.isWhitespace) s).filter (fun w => decide (w.length > 3))

/-- Source `isLikelyReplyByContent` (src/index.ts): content-similarity test
between an original message and a potential reply, over the cleaned,
lowercased subjects. -/
def isLikelyReplyByContent (originalMessage potentialReply : EmailMessage) : Bool :=
  let originalSubject := lowerStr (cleanReplySubject originalMessage.subject)
  let replySubject := lowerStr (cleanReplySubject potentialReply.subject)
  if originalSubject = replySubject ∧ originalSubject.length > 0 then true
  else if originalSubject.length > 5 ∧ strContains replySubject originalSubject = true then true
  else
    let originalWords := subjectWords originalSubject
    let replyWords := subjectWords replySubject
    if originalWords.length > 0 ∧ replyWords.length > 0 then
      decide ((originalWords.filter (fun word => replyWords.contains word)).length ≥
        min 2 ((originalWords.length + 1) / 2))
    else false

/-- Seven days in milliseconds (the source `timeWindowMs`). -/
def timeWindowMs : Int := 7 * 24 * 60 * 60 * 1000

/-- Membership of a sent date in the window
`originalDate < sentDate ∧ sentDate ≤ originalDate + timeWindowMs`
(the source computes `windowEnd = new Date(originalDate.getTime() + 7d)`;
all comparisons are false on NaN times). -/
def inReplyWindow (sent original : JsDate) : Bool :=
  match sent.time, original.time with
  | some ts, some t0 => decide (t0 < ts) && decide (ts ≤ t0 + timeWindowMs)
  | _, _ => false

/-- Filter predicate of strategy 1 of `isMessageReplied` (exact subject
match after the original message): sent strictly later, cleaned lowercased
subjects equal, subject non-empty. -/
def exactSubjectHit (originalMessage sentMsg : EmailMessage) : Bool :=
  let originalSubject := lowerStr (cleanReplySubject originalMessage.subject)
  let sentSubject := lowerStr (cleanReplySubject sentMsg.subject)
  jsAfter sentMsg.date originalMessage.date && decide (sentSubject = originalSubject) &&
    decide (sentSubject.length > 0)

/-- Filter predicate of strategy 2 of `isMessageReplied` (thread detection):
sent strictly later, sent subject contains the original subject but is not
identical to it. -/
def threadHit (originalMessage sentMsg : EmailMessage) : Bool :=
  let originalSubject := lowerStr (cleanReplySubject originalMessage.subject)
  let sentSubject := lowerStr (cleanReplySubject sentMsg.subject)
  jsAfter sentMsg.date originalMessage.date && strContains sentSubject originalSubject &&
    decide (sentSubject ≠ originalSubject)

/-- Filter predicate of strategy 3 of `isMessageReplied` (time-window
content similarity): sent within seven days after the original message and
content-similar. -/
def timeWindowHit (originalMessage sentMsg : EmailMessage) : Bool :=
  inReplyWindow sentMsg.date originalMessage.date &&
    isLikelyReplyByContent originalMessage sentMsg

/-- Source `isMessageReplied` (src/index.ts): layered detection whether
`originalMessage` has a reply among `sentMessages`; the three inline filter
closures of the source are the named predicates above.  The unused
`senderEmail` parameter of the source is dropped. -/
def isMessageReplied (originalMessage : EmailMessage)
    (sentMessages : List EmailMessage) : Bool :=
  let originalSubject := lowerStr (cleanReplySubject originalMessage.subject)
  let exactSubjectReplies := sentMessages.filter (exactSubjectHit originalMessage)
  if exactSubjectReplies.length > 0 then true
  else
    let threadReplies :=
      if originalSubject.length > 3 then
        sentMessages.filter (threadHit originalMessage)
      else []
    if threadReplies.length > 0 then true
    else
      let timeWindowReplies := sentMessages.filter (timeWindowHit originalMessage)
      decide (timeWindowReplies.length > 0)

/-- Sort key used by the source comparators over `new Date(...).getTime()`.
A NaN time makes the JavaScript comparator inconsistent (the engine treats a
NaN comparison result as 0); such dates are mapped to 0 here, and every
ordering theorem below explicitly excludes `JsDate.invalid` dates by
hypothesis. -/
def dateNum (d : JsDate) : Int :=
  match d.time with
  | some t => t
  | none => 0

/-- Source `detectUnrepliedMessagesAdvanced` (src/index.ts): sort both sets
ascending by date, then keep exactly the received messages for which
`isMessageReplied` fails. -/
def detectUnrepliedMessagesAdvanced
    (fromSenderMessages toSenderMessages : List EmailMessage) : List EmailMessage :=
  let sortedFromSender :=
    fromSenderMessages.mergeSort (fun a b => decide (dateNum a.date ≤ dateNum b.date))
  let sortedToSender :=
    toSenderMessages.mergeSort (fun a b => decide (dateNum a.date ≤ dateNum b.date))
  sortedFromSender.filter (fun fromMessage => !(isMessageReplied fromMessage sortedToSender))


/-- Content of the first match of the regex `/<([^>]+)>/` starting exactly at
the head of the list: at least one character other than `>` followed by `>`.
Greedy `[^>]+` cannot cross a `>`, so no backtracking is needed. -/
def takeNonGt (l : List Char) : Option (List Char) :=
  let content := l.takeWhile (fun c => decide (c ≠ '>'))
  match l.drop content.length with
  | '>' :: _ => if content.isEmpty then none else some content
  | _ => none

/-- Leftmost match of `/<([^>]+)>/` over a character list, returning the
captured group.  On failure at one `<` the regex engine advances the start
position by one character, which the recursion mirrors. -/
def scanAngle : List Char → Option (List Char)
  | [] => none
  | c :: rest =>
    if c = '<' then
      match takeNonGt rest with
      | some content => some content
      | none => scanAngle rest
    else scanAngle rest

/-- JavaScript `s.match(/<([^>]+)>/)`, first capture group. -/
def matchAngle (s : String) : Option String :=
  (scanAngle s.data).map List.asString

/-- Character class `[^\s<>]` of the bare-email regex in
`extractEmailFromAddress` / `extractEmailsFromAddressField`. -/
def emailTokenChar (c : Char) : Bool :=
  !c.isWhitespace && decide (c ≠ '<') && decide (c ≠ '>')

/-- Whether a character list has an `@` that is neither its first nor its
last element.  On a maximal `[^\s<>]` run this is exactly the condition for
`/([^\s<>]+@[^\s<>]+)/` to match at the start of the run, in which case the
greedy match is the whole run. -/
def hasInnerAt : List Char → Bool
  | [] => false
  | [_] => false
  | c :: rest => decide (c = '@') || hasInnerAt rest

/-- Leftmost match of `/([^\s<>]+@[^\s<>]+)/` over a character list.  At the
start position the match, if any, is the maximal `[^\s<>]` run from that
position (both subpatterns are greedy and the run must contain an internal
`@`); otherwise the start position advances by one character. -/
def scanEmailToken : List Char → Option (List Char)
  | [] => none
  | c :: rest =>
    if emailTokenChar c then
      let run := c :: rest.takeWhile emailTokenChar
      if hasInnerAt run.tail then some run
      else scanEmailToken rest
    else scanEmailToken rest

/-- JavaScript `s.match(/([^\s<>]+@[^\s<>]+)/)`, first capture group. -/
def matchEmailToken (s : String) : Option String :=
  (scanEmailToken s.data).map List.asString

/-- Source `extractEmailFromAddress` (src/index.ts), string branch: `null`
for a falsy field, otherwise the angle-bracket capture, else the bare-email
capture, else the original string.  The array/object branches of the source
are dead for this caller: `findMessageInMultipleMailboxes` returns messages
whose address fields are plain strings. -/
def extractEmailFromAddress (addressField : Option String) : Option String :=
  match addressField with
  | none => none
  | some s =>
    if s = "" then none
    else
      match matchAngle s with
      | some m => some m
      | none =>
        match matchEmailToken s with
        | some m => some m
        | none => some s

/-- Source `extractEmailsFromAddressField` (src/index.ts), string branch:
split on commas, per piece trim and extract (angle capture, else bare-email
capture, else the trimmed piece), then drop falsy (empty) entries. -/
def extractEmailsFromAddressField (addressField : Option String) : List String :=
  match addressField with
  | none => []
  | some s =>
    if s = "" then []
    else
      ((splitPred (fun c => c = ',') s).map (fun piece =>
        let e := trimStr piece
        match matchAngle e with
        | some m => m
        | none =>
          match matchEmailToken e with
          | some m => m
          | none => e)).filter (fun e => decide (e ≠ ""))

/-- Outgoing email options (`EmailOptions` of src/smtp-client.ts restricted
to the fields the handlers populate). -/
structure EmailOptions where
  toAddr : List String
  cc : Option (List String) := none
  bcc : Option (List String) := none
  subject : String
  text : Option String := none
  html : Option String := none
  deriving DecidableEq, Repr

/-- Arguments of the reply_to_email tool after the defaulting the handler
performs (`replyToAll || false`, `includeOriginal !== false`). -/
structure ReplyArgs where
  originalUid : Nat
  text : String
  html : Option String := none
  replyToAll : Bool := false
  includeOriginal : Bool := true
  deriving DecidableEq, Repr

/-- Source `buildQuotedText` (src/index.ts). -/
def buildQuotedText (originalText date sender : String) : String :=
  let lines := (splitPred (fun c => c = '\n') originalText).map (fun line => "> " ++ line)
  "On " ++ date ++ ", " ++ sender ++ " wrote:\n" ++ joinWith "\n" lines

/-- Source `buildQuotedHtml` (src/index.ts); the literal whitespace comes
from the template string. -/
def buildQuotedHtml (originalContent date sender : String) : String :=
  let quotedContent := strReplace originalContent "\n" "<br>"
  "<div style=\"border-left: 3px solid #ccc; padding-left: 10px; margin-left: 10px; color: #666;\">\n      <p><strong>On "
    ++ date ++ ", " ++ sender ++ " wrote:</strong></p>\n      <div>" ++ quotedContent
    ++ "</div>\n    </div>"

/-- Source `textToHtml` (src/index.ts). -/
def textToHtml (text : String) : String :=
  strReplace (strReplace text "\n" "<br>") "  " "&nbsp;&nbsp;"

/-- Rendering of `originalMessage.date ? new Date(...).toLocaleString() :
"Unknown Date"`: a falsy date field gives the fallback, an unparseable one
renders as Invalid Date, and the platform formatting of a timestamp is the
abstract parameter `fmtDate`. -/
def dateDisplay (fmtDate : Int → String) : JsDate → String
  | .missing => "Unknown Date"
  | .invalid => "Invalid Date"
  | .valid t => fmtDate t

/-- Reply composition portion of `handleReplyToEmail`
(src/index.ts lines 1506-1561): recipient resolution, subject, and body
building, producing the `EmailOptions` handed to `sendMail`.  `username` is
`EMAIL_CONFIG.IMAP.username`.  The source initializes `ccRecipients = []`
and overwrites it only when the filtered list is non-empty, which equals
using the filtered list directly. -/
def composeReply (username : String) (fmtDate : Int → String)
    (originalMessage : EmailMessage) (args : ReplyArgs) : Except String EmailOptions :=
  match extractEmailFromAddress (some originalMessage.fromAddr) with
  | none => .error "Could not extract sender email from original message"
  | some originalFrom =>
    let toRecipients := [originalFrom]
    let ccRecipients : List String :=
      if args.replyToAll then
        let originalTo := extractEmailsFromAddressField (some originalMessage.toAddr)
        let originalCc := extractEmailsFromAddressField originalMessage.cc
        let allRecipients := originalTo ++ originalCc
        allRecipients.filter (fun email => decide (email ≠ username) && decide (email ≠ originalFrom))
      else []
    let subject := "Re: " ++ originalMessage.subject
    let replyText := args.text
    let replyHtml := args.html
    let originalDate := dateDisplay fmtDate originalMessage.date
    let originalFromDisplay :=
      if originalMessage.fromAddr = "" then "Unknown Sender" else originalMessage.fromAddr
    let finalText :=
      if args.includeOriginal then
        replyText ++ "\n\n" ++
          buildQuotedText (jsOr originalMessage.text "") originalDate originalFromDisplay
      else replyText
    let finalHtml :=
      if args.includeOriginal then
        if jsTruthy replyHtml || jsTruthy originalMessage.html then
          some (jsOr replyHtml (textToHtml replyText) ++ "<br><br>" ++
            buildQuotedHtml (jsOr originalMessage.html (jsOr originalMessage.text ""))
              originalDate originalFromDisplay)
        else replyHtml
      else replyHtml
    .ok { toAddr := toRecipients,
          cc := if ccRecipients.length > 0 then some ccRecipients else none,
          subject := subject,
          text := some finalText,
          html := finalHtml }

/-- Result of a successful SMTP send (src/smtp-client.ts `EmailResult`,
restricted to the fields the handlers propagate). -/
structure SendResult where
  messageId : String
  response : String := ""
  deriving DecidableEq, Repr

/-- Source `saveSentMessage` (src/index.ts): the whole body sits in a
`try`/`catch` whose catch only logs, so whatever the outcome of the
underlying connection/save attempt, the function returns normally. -/
def saveSentMessage (attempt : Except String Unit) : Except String Unit :=
  match attempt with
  | .ok _ => .ok ()
  | .error _ => .ok ()

/-- Arguments of the send_email tool. -/
structure SendEmailArgs where
  toAddr : String
  subject : String
  text : Option String := none
  html : Option String := none
  cc : Option String := none
  bcc : Option String := none
  deriving DecidableEq, Repr

/-- Environment of the send_email handler: the SMTP send outcome and the
outcome of the sent-folder save attempt (the body of the `try` inside
`saveSentMessage`). -/
structure SendEnv where
  sendMail : EmailOptions → Except String SendResult
  saveAttempt : Except String Unit

/-- Comma split plus per-entry trim, as in `args.to.split(',').map(trim)`. -/
def splitRecipients (s : String) : List String :=
  (splitPred (fun c => c = ',') s).map trimStr

/-- JavaScript `args.cc ? args.cc.split(',').map(trim) : undefined`. -/
def optSplitRecipients (o : Option String) : Option (List String) :=
  match o with
  | some c => if c = "" then none else some (splitRecipients c)
  | none => none

/-- Payload of a successful send_email call. -/
structure SendResponse where
  result : SendResult
  sentFolderSaved : Bool
  note : String
  deriving DecidableEq, Repr

/-- The `emailOptions` record `handleSendEmail` builds from its arguments
(comma-split recipients; falsy cc/bcc left undefined). -/
def buildSendEmailOptions (args : SendEmailArgs) : EmailOptions :=
  { toAddr := splitRecipients args.toAddr,
    subject := args.subject,
    text := args.text,
    html := args.html,
    cc := optSplitRecipients args.cc,
    bcc := optSplitRecipients args.bcc }

/-- Source `handleSendEmail` (src/index.ts lines 1440-1479).  The
missing-content check throws before the `try`; inside it, a send failure is
wrapped as `Failed to send email: ...`, then `saveSentMessage` is awaited
(its errors are swallowed inside it) and the response is built with
`sentFolderSaved: true` unconditionally. -/
def handleSendEmail (env : SendEnv) (args : SendEmailArgs) : Except String SendResponse :=
  let emailOptions := buildSendEmailOptions args
  if !(jsTruthy emailOptions.text) && !(jsTruthy emailOptions.html) then
    .error "Either text or html content is required"
  else
    match env.sendMail emailOptions with
    | .error e => .error ("Failed to send email: " ++ e)
    | .ok result =>
      match saveSentMessage env.saveAttempt with
      | .error e => .error ("Failed to send email: " ++ e)
      | .ok _ =>
        .ok { result := result,
              sentFolderSaved := true,
              note := "Email sent successfully and saved to sent folder" }

/-- The `replyInfo` record of the reply_to_email response. -/
structure ReplyInfo where
  originalUid : Nat
  originalFrom : String
  originalSubject : String
  replyToAll : Bool
  includeOriginal : Bool
  recipientsTo : List String
  recipientsCc : Option (List String)
  deriving DecidableEq, Repr

/-- Payload of a successful reply_to_email call. -/
structure ReplyResponse where
  result : SendResult
  replyInfo : ReplyInfo
  sentFolderSaved : Bool
  note : String
  deriving DecidableEq, Repr

/-- Environment of the reply_to_email handler: the original message as found
by `findMessageInMultipleMailboxes` (`none` when not found in any mailbox),
the SMTP send outcome, and the sent-folder save attempt. -/
structure ReplyEnv where
  original : Option EmailMessage
  sendMail : EmailOptions → Except String SendResult
  saveAttempt : Except String Unit

/-- Source `handleReplyToEmail` (src/index.ts lines 1481-1600): find the
original, compose via `composeReply`, send, run `saveSentMessage`, and
answer with `sentFolderSaved: true` unconditionally; every throw inside the
`try` is wrapped as `Failed to reply to email: ...`.  The extracted sender
address equals the head of the composed `to` list (`to = [originalFrom]`). -/
def handleReplyToEmail (username : String) (fmtDate : Int → String)
    (env : ReplyEnv) (args : ReplyArgs) : Except String ReplyResponse :=
  match env.original with
  | none =>
    .error ("Failed to reply to email: Original message with UID " ++
      toString args.originalUid ++ " not found in any mailbox")
  | some originalMessage =>
    match composeReply username fmtDate originalMessage args with
    | .error e => .error ("Failed to reply to email: " ++ e)
    | .ok emailOptions =>
      match env.sendMail emailOptions with
      | .error e => .error ("Failed to reply to email: " ++ e)
      | .ok result =>
        match saveSentMessage env.saveAttempt with
        | .error e => .error ("Failed to reply to email: " ++ e)
        | .ok _ =>
          .ok { result := result,
                replyInfo :=
                  { originalUid := args.originalUid,
                    originalFrom := emailOptions.toAddr.headD "",
                    originalSubject := originalMessage.subject,
                    replyToAll := args.replyToAll,
                    includeOriginal := args.includeOriginal,
                    recipientsTo := emailOptions.toAddr,
                    recipientsCc := emailOptions.cc },
                sentFolderSaved := true,
                note := "Reply sent successfully and saved to sent folder" }

/-- JavaScript `\w` character class `[A-Za-z0-9_]`. -/
def isWordCh (c : Char) : Bool :=
  c.isAlphanum || decide (c = '_')

/-- Full match of the pattern `\d{4}-\d{2}-\d{2}` (e.g. `2025-08-19`). -/
def dateOnlyPat1 (l : List Char) : Bool :=
  match l with
  | [a, b, c, d, h1, e, f, h2, g, i] =>
    a.isDigit && b.isDigit && c.isDigit && d.isDigit && decide (h1 = '-') &&
      e.isDigit && f.isDigit && decide (h2 = '-') && g.isDigit && i.isDigit
  | _ => false

/-- Full match of the pattern `\d{2}-\w{3}-\d{4}` (e.g. `19-Aug-2025`). -/
def dateOnlyPat2 (l : List Char) : Bool :=
  match l with
  | [a, b, h1, w1, w2, w3, h2, c, d, e, f] =>
    a.isDigit && b.isDigit && decide (h1 = '-') && isWordCh w1 && isWordCh w2 &&
      isWordCh w3 && decide (h2 = '-') && c.isDigit && d.isDigit && e.isDigit && f.isDigit
  | _ => false

/-- Exactly four digits up to the end of the input (`\d{4}` anchored). -/
def fourDigitsEnd (l : List Char) : Bool :=
  match l with
  | [a, b, c, d] => a.isDigit && b.isDigit && c.isDigit && d.isDigit
  | _ => false

/-- Match of `\s+\d{4}` anchored at the end: one or more whitespace
characters, then four digits, then end of input.  The disjunction covers
every split of the whitespace run, matching the regex with backtracking. -/
def wsThenFourDigits : List Char → Bool
  | [] => false
  | c :: rest => c.isWhitespace && (fourDigitsEnd rest || wsThenFourDigits rest)

/-- Match of `,?\s+\d{4}` anchored at the end. -/
def commaOptThenWs (l : List Char) : Bool :=
  (match l with
   | ',' :: rest => wsThenFourDigits rest
   | _ => false) || wsThenFourDigits l

/-- Match of `\d{1,2},?\s+\d{4}` anchored at the end (one or two day
digits, tried greedily). -/
def dayDigitsTail (l : List Char) : Bool :=
  match l with
  | [] => false
  | a :: rest =>
    a.isDigit &&
      ((match rest with
        | b :: r2 => b.isDigit && commaOptThenWs r2
        | [] => false) ||
       commaOptThenWs rest)

/-- Match of `\s+\d{1,2},?\s+\d{4}` anchored at the end. -/
def wsThenDay : List Char → Bool
  | [] => false
  | c :: rest => c.isWhitespace && (dayDigitsTail rest || wsThenDay rest)

/-- Full match of the pattern `\w{3}\s+\d{1,2},?\s+\d{4}`
(e.g. `Aug 19, 2025` or `Aug 19 2025`). -/
def dateOnlyPat3 (l : List Char) : Bool :=
  match l with
  | w1 :: w2 :: w3 :: rest => isWordCh w1 && isWordCh w2 && isWordCh w3 && wsThenDay rest
  | _ => false

/-- Source `isDateOnly` (src/index.ts lines 108-118): whether the trimmed
date string fully matches one of the three date-only patterns. -/
def isDateOnly (dateString : String) : Bool :=
  let t := listTrim dateString.data
  dateOnlyPat1 t || dateOnlyPat2 t || dateOnlyPat3 t

/-- Model of `end.setHours(23, 59, 59, 999)` on a midnight timestamp, under
a UTC server timezone: last millisecond of the UTC day containing `t`. -/
def endOfDayUtc (t : Int) : Int :=
  (t.fdiv 86400000) * 86400000 + 86399999

/-- Parsed filter bounds of `filterMessagesByDateRange`: a falsy (empty)
date string or an unparseable one yields no bound on that side (the source
logs and sets the bound to null); a date-only end bound is widened to the
end of its calendar day. -/
def parseRangeEnds (parseDate : String → Option Int) (startDate endDate : String) :
    Option Int × Option Int :=
  let startB := if startDate = "" then none else parseDate startDate
  let endB :=
    if endDate = "" then none
    else
      match parseDate endDate with
      | some e => some (if isDateOnly endDate then endOfDayUtc e else e)
      | none => none
  (startB, endB)

/-- Per-message predicate of the filter in `filterMessagesByDateRange`: a
message with a missing or unparseable date is always kept; otherwise it is
dropped exactly when strictly before the start bound or strictly after the
end bound. -/
def messagePassesDateFilter (startB endB : Option Int) (msg : EmailMessage) : Bool :=
  match msg.date.time with
  | none => true
  | some t =>
    (match startB with
     | some s => !(decide (t < s))
     | none => true) &&
    (match endB with
     | some e => !(decide (e < t))
     | none => true)

/-- Source `filterMessagesByDateRange` (src/index.ts lines 121-172), with
`parseDate` abstracting `new Date(string)`. -/
def filterMessagesByDateRange (parseDate : String → Option Int)
    (messages : List EmailMessage) (startDate endDate : String) : List EmailMessage :=
  if startDate = "" ∧ endDate = "" then messages
  else
    let bounds := parseRangeEnds parseDate startDate endDate
    messages.filter (messagePassesDateFilter bounds.1 bounds.2)

/-- Source constant `COMMON_SENT_MAILBOX_NAMES` (src/index.ts line 94). -/
def COMMON_SENT_MAILBOX_NAMES : List String :=
  ["INBOX.Sent", "Sent", "SENT", "Sent Items", "Sent Messages", "已发送"]

/-- Per-mailbox entry of `mailboxesSearched`. -/
structure MailboxSearchResult where
  mailbox : String
  matchingUIDs : List Nat
  messageCount : Nat
  error : Option String := none
  deriving DecidableEq, Repr

/-- Aggregate result of a federated search (`SearchResult` of src/index.ts,
without the backward-compatibility echo fields). -/
structure SearchResult where
  searchType : String
  searchValue : String
  mailboxesSearched : List MailboxSearchResult
  totalMatches : Nat
  messages : List EmailMessage
  note : Option String := none
  warning : Option String := none
  deriving DecidableEq, Repr

/-- IMAP oracle for one federated search: `openBox name` is whether the
read-only open during sent-folder discovery succeeds, and
`searchAndFetch name` is the outcome of the whole open/search/fetch
sequence the main loop runs for that mailbox inside one `try` block. -/
structure ImapEnv where
  openBox : String → Bool
  searchAndFetch : String → Except String (List EmailMessage)

/-- One iteration of the main loop of `searchInMultipleMailboxes`
(src/index.ts lines 208-259): on a thrown error the mailbox entry carries
the error string with empty UIDs and zero count; on success the fetched
messages are tagged with the source mailbox, date-filtered when a range was
supplied, and recorded with their UIDs and count. -/
def processOneMailbox (parseDate : String → Option Int) (startDate endDate : String)
    (mailboxName : String) (outcome : Except String (List EmailMessage)) :
    MailboxSearchResult × List EmailMessage :=
  match outcome with
  | .error e =>
    ({ mailbox := mailboxName, matchingUIDs := [], messageCount := 0,
       error := some ("Failed to search: " ++ e) }, [])
  | .ok fetched =>
    let messagesWithMailbox := fetched.map (fun m => { m with sourceMailbox := mailboxName })
    let filteredMessages :=
      if startDate ≠ "" ∨ endDate ≠ "" then
        filterMessagesByDateRange parseDate messagesWithMailbox startDate endDate
      else messagesWithMailbox
    ({ mailbox := mailboxName,
       matchingUIDs := filteredMessages.map (fun m => m.uid),
       messageCount := filteredMessages.length }, filteredMessages)

/-- Descending sort of the merged messages, comparator
`new Date(b.date || 0) - new Date(a.date || 0)` (missing date reads as the
epoch; see `dateNum` about invalid dates). -/
def sortMessagesByDateDesc (l : List EmailMessage) : List EmailMessage :=
  l.mergeSort (fun a b => decide (dateNum b.date ≤ dateNum a.date))

/-- Source `searchInMultipleMailboxes` (src/index.ts lines 175-287):
discover at most one sent folder (first candidate that opens), run the
per-mailbox search loop over INBOX plus that folder, set `totalMatches` to
the merged filtered count, sort descending by date, attach the note, and
attach the warning when no sent folder was found.  The untyped
`searchCriteria` echo field is omitted. -/
def searchInMultipleMailboxes (env : ImapEnv) (parseDate : String → Option Int)
    (searchType searchValue : String) (startDate endDate : String) : SearchResult :=
  let sentBox := COMMON_SENT_MAILBOX_NAMES.find? env.openBox
  let mailboxesToSearch := "INBOX" :: sentBox.toList
  let processed := mailboxesToSearch.map
    (fun name => processOneMailbox parseDate startDate endDate name (env.searchAndFetch name))
  let mailboxesSearched := processed.map Prod.fst
  let messages := (processed.map Prod.snd).flatten
  let totalMatches := messages.length
  let note :=
    if totalMatches > 0 then
      "Found and retrieved " ++ toString totalMatches ++ " messages across " ++
        toString mailboxesSearched.length ++ " mailboxes" ++
        (if startDate ≠ "" ∨ endDate ≠ "" then " (filtered by date range)" else "")
    else "No messages found in any of the searched mailboxes"
  { searchType := searchType,
    searchValue := searchValue,
    mailboxesSearched := mailboxesSearched,
    totalMatches := totalMatches,
    messages := sortMessagesByDateDesc messages,
    note := some note,
    warning := if sentBox.isNone then some "Could not find sent mailbox - only searched INBOX" else none }

/-- Raw header map entries the degraded path of `fetchMessages` reads
(output of `parseHeaders`, lowercased keys); `none` models an absent key. -/
structure RawHeaders where
  subject : Option String := none
  fromAddr : Option String := none
  toAddr : Option String := none
  cc : Option String := none
  bcc : Option String := none
  deriving DecidableEq, Repr

/-- Data accumulated for one message before the parse step of
`fetchMessages` (src/imap-client.ts): the attribute-derived base fields,
the parsed header map, the raw TEXT section, and the raw message source. -/
structure PendingMessageData where
  uid : Nat
  id : Option Nat := none
  flags : List String := []
  date : JsDate
  size : Nat := 0
  headers : RawHeaders
  body : String := ""
  raw : String := ""
  deriving DecidableEq, Repr

/-- Result of a successful `simpleParser` run, with the mailparser address
objects already reduced to bare address strings (the in-source
`extractEmailAddress` helper operates on platform mailparser objects and is
modelled as this pre-reduced form; no claim below depends on it). -/
structure ParsedMail where
  subject : Option String := none
  fromText : String := ""
  toText : String := ""
  ccText : String := ""
  bccText : String := ""
  text : Option String := none
  deriving DecidableEq, Repr

/-- Per-message normalization at the end of `fetchMessages`
(src/imap-client.ts lines 706-768): on a successful parse the message is
built from the parsed mail (subject defaulting to `No Subject`); when the
parse throws, the catch builds a degraded message from the raw headers
(`subject || "Parse Failed"`, `from || ""`, `to || ""`, `cc || undefined`,
`bcc || undefined`) and the trimmed raw body, and never rethrows. -/
def normalizeFetchedMessage (simpleParserFn : String → Option ParsedMail)
    (data : PendingMessageData) : EmailMessage :=
  match simpleParserFn data.raw with
  | some parsedMail =>
    { uid := data.uid, id := data.id, flags := data.flags, date := data.date,
      size := data.size,
      subject := jsOr parsedMail.subject "No Subject",
      fromAddr := parsedMail.fromText,
      toAddr := parsedMail.toText,
      cc := if parsedMail.ccText = "" then none else some parsedMail.ccText,
      bcc := if parsedMail.bccText = "" then none else some parsedMail.bccText,
      text := parsedMail.text }
  | none =>
    { uid := data.uid, id := data.id, flags := data.flags, date := data.date,
      size := data.size,
      subject := jsOr data.headers.subject "Parse Failed",
      fromAddr := jsOr data.headers.fromAddr "",
      toAddr := jsOr data.headers.toAddr "",
      cc := if jsTruthy data.headers.cc then data.headers.cc else none,
      bcc := if jsTruthy data.headers.bcc then data.headers.bcc else none,
      text := some (trimStr data.body) }

/-- The parse loop of the fetch `end` handler: every pending message yields
exactly one `EmailMessage` and the promise is resolved, never rejected, on
parse failures. -/
def fetchLoopMessages (simpleParserFn : String → Option ParsedMail)
    (pending : List PendingMessageData) : List EmailMessage :=
  pending.map (normalizeFetchedMessage simpleParserFn)


/-! ## Concrete instances used by counterexamples and witnesses -/

/-- Original message used in the C1 counterexample: its subject already
carries the `Re: ` marker. -/
def c1Original : EmailMessage :=
  { uid := 7, date := .valid 0, subject := "Re: Hello", fromAddr := "alice@example.com" }
/-- Reply arguments used in the C1 counterexample. -/
def c1Args : ReplyArgs :=
  { originalUid := 7, text := "hi", includeOriginal := false }
/-- Original message used in the C1 witness. -/
def c1wOriginal : EmailMessage :=
  { uid := 8, date := .valid 0, subject := "Hello", fromAddr := "alice@example.com" }
/-- Original message used for C8: two identical recipients in `to`, sender
given in display form. -/
def c8Original : EmailMessage :=
  { uid := 9, date := .valid 0, subject := "Hi", fromAddr := "Alice <a@x.com>",
    toAddr := "b@x.com, b@x.com" }
/-- Claim-literal reading of the C5 similarity condition, written from the
specification text for refinement comparison (not from the source):
subjects exactly equal, or one containing the other under the length
guard, or the common-word threshold met, with no non-emptiness guards. -/
def likelyReplySpecClaim (M S : EmailMessage) : Prop :=
  let o := lowerStr (cleanReplySubject M.subject)
  let r := lowerStr (cleanReplySubject S.subject)
  o = r ∨
    (5 < o.length ∧ (strContains r o = true ∨ strContains o r = true)) ∨
    min 2 (((subjectWords o).length + 1) / 2) ≤
      ((subjectWords o).filter (fun w => (subjectWords r).contains w)).length
/-- Received message of the C5 counterexample (empty subject). -/
def c5Received : EmailMessage := { uid := 101, date := .valid 0, subject := "" }
/-- Sent message of the C5 counterexample (empty subject, one hour
later). -/
def c5Sent : EmailMessage := { uid := 102, date := .valid 3600000, subject := "" }
/-- Received message of the C5 witness. -/
def c5wReceived : EmailMessage := { uid := 103, date := .valid 0, subject := "Budget review" }
/-- Sent message of the C5 witness: same normalized subject, three days
later. -/
def c5wSent : EmailMessage :=
  { uid := 104, date := .valid 259200000, subject := "budget review" }
/-- Environment of the C2 witness: no sent folder opens, INBOX yields two
messages given oldest-first. -/
def c2Env : ImapEnv :=
  { openBox := fun _ => false,
    searchAndFetch := fun name =>
      if name = "INBOX" then
        Except.ok [{ uid := 1, date := .valid 100, subject := "older" },
                   { uid := 2, date := .valid 200, subject := "newer" }]
      else Except.ok [] }
/-- Date-string parser of the C3 witness (millisecond timestamps of
2025-07-01T00:00Z and 2025-08-01T00:00Z). -/
def c3Parse : String → Option Int := fun s =>
  if s = "2025-07-01" then some 1751328000000
  else if s = "2025-08-01" then some 1754006400000
  else none
/-- Message of the C3 witness dated 2025-08-01T23:00Z. -/
def c3Msg : EmailMessage := { uid := 21, date := .valid 1754089200000, subject := "m" }
/-- Undated message of the C3 witness. -/
def c3NoDate : EmailMessage := { uid := 22, date := .missing, subject := "n" }
/-- Environment of the C6 witness: the first sent candidate fails to open,
the second opens; searching INBOX succeeds with one message and searching
the sent folder throws. -/
def c6Env : ImapEnv :=
  { openBox := fun name => name = "Sent",
    searchAndFetch := fun name =>
      if name = "INBOX" then Except.ok [{ uid := 31, date := .valid 500, subject := "kept" }]
      else Except.error "connection lost" }
/-- Environment of the C7 witness: every mailbox open fails. -/
def c7Env : ImapEnv :=
  { openBox := fun _ => false,
    searchAndFetch := fun _ => Except.ok [] }
/-- Pending message of the C9 witness. -/
def c9Pending : PendingMessageData :=
  { uid := 41, date := .missing,
    headers := { subject := some "Weekly Report", fromAddr := some "boss@example.com" },
    body := "  raw text body  ", raw := "unparseable" }
/-- Send environment of the C10 witness: the send succeeds and the save
attempt fails. -/
def c10SendEnv : SendEnv :=
  { sendMail := fun _ => Except.ok { messageId := "msg-1" },
    saveAttempt := Except.error "APPEND failed" }
/-- Original message of the C10 witness reply. -/
def c10Original : EmailMessage :=
  { uid := 51, date := .valid 0, subject := "Hi", fromAddr := "alice@example.com" }
/-- Reply environment of the C10 witness: the original is found, the send
succeeds and the save attempt fails. -/
def c10ReplyEnv : ReplyEnv :=
  { original := some c10Original,
    sendMail := fun _ => Except.ok { messageId := "msg-2" },
    saveAttempt := Except.error "APPEND failed" }

/-- Received message of the C4 witness. -/
def c4Received : EmailMessage := { uid := 11, date := .valid 0, subject := "Project X" }
/-- Sent message of the C4 witness: one hour later, marker-prefixed
subject. -/
def c4Sent : EmailMessage := { uid := 12, date := .valid 3600000, subject := "Re: Project X" }

/-! ## Helper lemmas -/

/-- Lowercasing preserves the length of a string. -/
theorem lowerStr_length (s : String) : (lowerStr s).length = s.length :=
  List.length_map s.data Char.toLower

/-- A non-empty string has positive length. -/
theorem strLength_pos_of_ne_empty (s : String) (h : s ≠ "") : 0 < s.length := by
  cases s with
  | mk data =>
    cases data with
    | nil => exact absurd rfl h
    | cons c t => simp [String.length]

/-- The filtered sublist is non-empty exactly when some element satisfies
the predicate. -/
theorem filter_length_pos_iff {α : Type} (p : α → Bool) (l : List α) :
    0 < (l.filter p).length ↔ ∃ a ∈ l, p a = true := by
  rw [List.length_pos]
  simp [List.filter_eq_nil_iff]

/-- Sorting does not change how many elements satisfy a predicate. -/
theorem filter_length_mergeSort {α : Type} (p : α → Bool) (l : List α)
    (le : α → α → Bool) :
    ((l.mergeSort le).filter p).length = (l.filter p).length :=
  ((List.mergeSort_perm l le).filter p).length_eq

/-- Characterization of `isMessageReplied` as existential checks of the
three strategies over the sent list. -/
theorem isMessageReplied_iff (M : EmailMessage) (l : List EmailMessage) :
    isMessageReplied M l = true ↔
      (∃ s ∈ l, exactSubjectHit M s = true) ∨
      (3 < (lowerStr (cleanReplySubject M.subject)).length ∧
        ∃ s ∈ l, threadHit M s = true) ∨
      (∃ s ∈ l, timeWindowHit M s = true) := by
  simp only [isMessageReplied]
  by_cases h1 : (l.filter (exactSubjectHit M)).length > 0
  · rw [if_pos h1]
    have hex := (filter_length_pos_iff (exactSubjectHit M) l).mp h1
    simp [hex]
  · rw [if_neg h1]
    have hA : ¬ ∃ s ∈ l, exactSubjectHit M s = true :=
      fun h => h1 ((filter_length_pos_iff _ _).mpr h)
    by_cases hg : (lowerStr (cleanReplySubject M.subject)).length > 3
    · rw [if_pos hg]
      by_cases h2 : (l.filter (threadHit M)).length > 0
      · rw [if_pos h2]
        have hth := (filter_length_pos_iff (threadHit M) l).mp h2
        simp [hA, hth, hg]
      · rw [if_neg h2]
        have hB : ¬ ∃ s ∈ l, threadHit M s = true :=
          fun h => h2 ((filter_length_pos_iff _ _).mpr h)
        simp only [decide_eq_true_eq, gt_iff_lt, filter_length_pos_iff]
        constructor
        · intro h; exact Or.inr (Or.inr h)
        · rintro (h | ⟨_, h⟩ | h)
          · exact absurd h hA
          · exact absurd h hB
          · exact h
    · rw [if_neg hg]
      simp only [List.length_nil, gt_iff_lt, Nat.lt_irrefl, if_false,
        decide_eq_true_eq, filter_length_pos_iff]
      constructor
      · intro h; exact Or.inr (Or.inr h)
      · rintro (h | ⟨hlen, _⟩ | h)
        · exact absurd h hA
        · exact absurd hlen hg
        · exact h

/-- `isMessageReplied` only depends on the sent list up to permutation; in
particular the ascending pre-sort in `detectUnrepliedMessagesAdvanced` does
not change it. -/
theorem isMessageReplied_mergeSort (M : EmailMessage) (l : List EmailMessage)
    (le : EmailMessage → EmailMessage → Bool) :
    isMessageReplied M (l.mergeSort le) = isMessageReplied M l := by
  rw [Bool.eq_iff_iff, isMessageReplied_iff, isMessageReplied_iff]
  simp [List.mem_mergeSort]

/-- Membership description of the unreplied list: exactly the received
messages on which every strategy fails. -/
theorem mem_detectUnreplied_iff (received sent : List EmailMessage) (M : EmailMessage) :
    M ∈ detectUnrepliedMessagesAdvanced received sent ↔
      M ∈ received ∧ isMessageReplied M sent = false := by
  unfold detectUnrepliedMessagesAdvanced
  simp only [List.mem_filter, List.mem_mergeSort, isMessageReplied_mergeSort,
    Bool.not_eq_true']

/-- Characterization of the content-similarity test. -/
theorem isLikelyReplyByContent_iff (M S : EmailMessage) :
    isLikelyReplyByContent M S = true ↔
      ((lowerStr (cleanReplySubject M.subject) = lowerStr (cleanReplySubject S.subject) ∧
          0 < (lowerStr (cleanReplySubject M.subject)).length) ∨
        (5 < (lowerStr (cleanReplySubject M.subject)).length ∧
          strContains (lowerStr (cleanReplySubject S.subject))
            (lowerStr (cleanReplySubject M.subject)) = true) ∨
        (0 < (subjectWords (lowerStr (cleanReplySubject M.subject))).length ∧
          0 < (subjectWords (lowerStr (cleanReplySubject S.subject))).length ∧
          min 2 (((subjectWords (lowerStr (cleanReplySubject M.subject))).length + 1) / 2) ≤
            ((subjectWords (lowerStr (cleanReplySubject M.subject))).filter
              (fun w => (subjectWords (lowerStr (cleanReplySubject S.subject))).contains w)).length)) := by
  simp only [isLikelyReplyByContent]
  split_ifs with h1 h2 h3
  · simp only [true_iff]
    exact Or.inl h1
  · simp only [true_iff]
    exact Or.inr (Or.inl h2)
  · rw [decide_eq_true_eq]
    constructor
    · intro hc
      exact Or.inr (Or.inr ⟨h3.1, h3.2, hc⟩)
    · rintro (h | h | ⟨_, _, hc⟩)
      · exact absurd h h1
      · exact absurd h h2
      · exact hc
  · simp only [false_iff]
    rintro (h | h | h)
    · exact absurd h h1
    · exact absurd h h2
    · exact h3 ⟨h.1, h.2.1⟩

/-- The error entry built for a failed mailbox never carries the empty
string. -/
theorem failed_search_message_ne_empty (e : String) :
    "Failed to search: " ++ e ≠ "" := by
  intro h
  have hlen : ("Failed to search: " ++ e).length = 0 := by rw [h]; rfl
  rw [String.length_append] at hlen
  have h18 : ("Failed to search: " : String).length = 18 := rfl
  omega

/-- A successful `List.find?` returns the first element satisfying the
predicate: the match satisfies it and everything before it fails it. -/
theorem find?_first {α : Type} (p : α → Bool) :
    ∀ (l : List α) (a : α), l.find? p = some a →
      p a = true ∧ ∃ l1 l2, l = l1 ++ a :: l2 ∧ ∀ x ∈ l1, p x = false := by
  intro l
  induction l with
  | nil => intro a h; simp [List.find?] at h
  | cons c t ih =>
    intro a h
    rw [List.find?] at h
    by_cases hc : p c = true
    · rw [hc] at h
      simp at h
      subst h
      exact ⟨hc, [], t, rfl, by simp⟩
    · rw [Bool.not_eq_true] at hc
      rw [hc] at h
      obtain ⟨hpa, l1, l2, heq, hall⟩ := ih a h
      refine ⟨hpa, c :: l1, l2, by simp [heq], ?_⟩
      intro x hx
      rcases List.mem_cons.mp hx with hx | hx
      · subst hx; exact hc
      · exact hall x hx

/-! ## Claim theorems -/



/-- C1 counterexample: replying to a message whose subject is already
`Re: Hello` produces the outgoing subject `Re: Re: Hello`, not the claimed
unchanged `Re: Hello` — the composer never checks for an existing marker. -/
theorem C1_counterexample :
    (composeReply "me@example.com" (fun _ => "") c1Original c1Args).toOption.map
        (fun o => o.subject) = some "Re: Re: Hello" ∧
      "Re: Re: Hello" ≠ "Re: Hello" :=
  ⟨rfl, by decide⟩

/-- C1 (amended): for reply_to_email (composeReply), the outgoing subject is
always `Re: ` concatenated with the original subject, with no check for an
existing marker; a subject `Hello` becomes `Re: Hello`, and a subject
already of the form `Re: Hello` becomes `Re: Re: Hello`. -/
theorem C1_reply_subject :
    ∀ (username : String) (fmtDate : Int → String) (originalMessage : EmailMessage)
      (args : ReplyArgs) (opts : EmailOptions),
      composeReply username fmtDate originalMessage args = .ok opts →
      opts.subject = "Re: " ++ originalMessage.subject := by
  intro username fmtDate originalMessage args opts h
  cases hx : extractEmailFromAddress (some originalMessage.fromAddr) with
  | none =>
    simp only [composeReply, hx] at h
    exact Except.noConfusion h
  | some originalFrom =>
    simp only [composeReply, hx, Except.ok.injEq] at h
    subst h
    rfl


/-- C1 witness: the amended theorem applied to a concrete compose call
whose subject is `Hello`, yielding `Re: Hello`. -/
theorem C1_reply_subject_witness :
    composeReply "me@example.com" (fun _ => "") c1wOriginal
        { originalUid := 8, text := "hi", includeOriginal := false } =
      .ok { toAddr := ["alice@example.com"], subject := "Re: Hello", text := some "hi" } ∧
    ({ toAddr := ["alice@example.com"], subject := "Re: Hello", text := some "hi" } :
        EmailOptions).subject = "Re: " ++ c1wOriginal.subject :=
  ⟨rfl, C1_reply_subject "me@example.com" (fun _ => "") c1wOriginal
    { originalUid := 8, text := "hi", includeOriginal := false } _ rfl⟩


/-- C8: with replyToAll, the outgoing `to` is the bare address of the original sender
address as claimed, and the outgoing `cc` merges the original recipients
excluding the account and the primary recipient — but duplicates are NOT
removed, contradicting both the claim and the in-code dedup comment:
the duplicated recipient `b@x.com` appears twice in `cc`. -/
theorem C8_reply_all_keeps_duplicates :
    (composeReply "me@x.com" (fun _ => "") c8Original
        { originalUid := 9, text := "hi", replyToAll := true, includeOriginal := false }).toOption.map
      (fun o => (o.toAddr, o.cc)) = some (["a@x.com"], some ["b@x.com", "b@x.com"]) := by
  rfl

/-- C4: the unreplied list contains exactly the received messages on which
no detection strategy fires, and any sent message strictly later whose
subject, after stripping one leading reply marker and trimming, equals the
received subject (non-empty) marks the received message as replied. -/
theorem C4_exact_subject_reply_detection :
    ∀ (received sent : List EmailMessage) (M : EmailMessage),
      (M ∈ detectUnrepliedMessagesAdvanced received sent ↔
        M ∈ received ∧ isMessageReplied M sent = false) ∧
      ((∃ S ∈ sent, jsAfter S.date M.date = true ∧
          cleanReplySubject S.subject = cleanReplySubject M.subject ∧
          cleanReplySubject M.subject ≠ "") →
        isMessageReplied M sent = true ∧
        M ∉ detectUnrepliedMessagesAdvanced received sent) := by
  intro received sent M
  constructor
  · exact mem_detectUnreplied_iff received sent M
  · rintro ⟨S, hS, hafter, heq, hne⟩
    have hhit : exactSubjectHit M S = true := by
      have hlow : lowerStr (cleanReplySubject S.subject) =
          lowerStr (cleanReplySubject M.subject) := by rw [heq]
      have hpos : 0 < (lowerStr (cleanReplySubject S.subject)).length := by
        rw [lowerStr_length, heq]
        exact strLength_pos_of_ne_empty _ hne
      show (jsAfter S.date M.date &&
          decide (lowerStr (cleanReplySubject S.subject) =
            lowerStr (cleanReplySubject M.subject)) &&
          decide ((lowerStr (cleanReplySubject S.subject)).length > 0)) = true
      rw [Bool.and_eq_true, Bool.and_eq_true]
      exact ⟨⟨hafter, decide_eq_true hlow⟩, decide_eq_true hpos⟩
    have hrep : isMessageReplied M sent = true :=
      (isMessageReplied_iff M sent).mpr (Or.inl ⟨S, hS, hhit⟩)
    refine ⟨hrep, ?_⟩
    rw [mem_detectUnreplied_iff]
    rintro ⟨-, hfalse⟩
    rw [hrep] at hfalse
    cases hfalse



/-- C4 witness: the theorem applied to the `Project X` / `Re: Project X`
pair one hour apart. -/
theorem C4_exact_subject_reply_detection_witness :
    (∃ S ∈ [c4Sent], jsAfter S.date c4Received.date = true ∧
      cleanReplySubject S.subject = cleanReplySubject c4Received.subject ∧
      cleanReplySubject c4Received.subject ≠ "") ∧
    (isMessageReplied c4Received [c4Sent] = true ∧
      c4Received ∉ detectUnrepliedMessagesAdvanced [c4Received] [c4Sent]) :=
  ⟨by decide,
    (C4_exact_subject_reply_detection [c4Received] [c4Sent] c4Received).2 (by decide)⟩




/-- C5 counterexample: a sent message one hour later with a subject equal
to the received one (both empty after normalization) satisfies the claimed
marking condition, yet the code does not mark the message replied — the
equality branch additionally requires a non-empty subject, and the word
branch requires both word lists non-empty. -/
theorem C5_counterexample :
    likelyReplySpecClaim c5Received c5Sent ∧
    inReplyWindow c5Sent.date c5Received.date = true ∧
    isMessageReplied c5Received [c5Sent] = false := by
  refine ⟨?_, by decide, by decide⟩
  left
  decide

/-- C5 (amended): the time-window strategy fires only for sent messages
dated within seven days strictly after the received date; it marks the
message replied when the normalized subjects are equal AND non-empty, or
when the sent subject contains the received subject (received subject
length > 5), or when both subjects have words longer than 3 characters and
the received subject shares at least min(2, ceil(receivedWordCount/2)) of
its words with the sent subject. -/
theorem C5_time_window_similarity :
    ∀ (M S : EmailMessage) (sent : List EmailMessage),
      (S ∈ sent → inReplyWindow S.date M.date = true →
        isLikelyReplyByContent M S = true → isMessageReplied M sent = true) ∧
      (isLikelyReplyByContent M S = true ↔
        ((lowerStr (cleanReplySubject M.subject) = lowerStr (cleanReplySubject S.subject) ∧
            0 < (lowerStr (cleanReplySubject M.subject)).length) ∨
          (5 < (lowerStr (cleanReplySubject M.subject)).length ∧
            strContains (lowerStr (cleanReplySubject S.subject))
              (lowerStr (cleanReplySubject M.subject)) = true) ∨
          (0 < (subjectWords (lowerStr (cleanReplySubject M.subject))).length ∧
            0 < (subjectWords (lowerStr (cleanReplySubject S.subject))).length ∧
            min 2 (((subjectWords (lowerStr (cleanReplySubject M.subject))).length + 1) / 2) ≤
              ((subjectWords (lowerStr (cleanReplySubject M.subject))).filter
                (fun w => (subjectWords (lowerStr (cleanReplySubject S.subject))).contains w)).length))) ∧
      (isMessageReplied M sent = true →
        (∃ T ∈ sent, exactSubjectHit M T = true) ∨
        (3 < (lowerStr (cleanReplySubject M.subject)).length ∧ ∃ T ∈ sent, threadHit M T = true) ∨
        (∃ T ∈ sent, inReplyWindow T.date M.date = true ∧
          isLikelyReplyByContent M T = true)) := by
  intro M S sent
  refine ⟨?_, isLikelyReplyByContent_iff M S, ?_⟩
  · intro hmem hwin hlik
    apply (isMessageReplied_iff M sent).mpr
    refine Or.inr (Or.inr ⟨S, hmem, ?_⟩)
    simp only [timeWindowHit, hwin, hlik, Bool.and_self]
  · intro hrep
    rcases (isMessageReplied_iff M sent).mp hrep with h | h | ⟨T, hT, hhit⟩
    · exact Or.inl h
    · exact Or.inr (Or.inl h)
    · refine Or.inr (Or.inr ⟨T, hT, ?_, ?_⟩)
      · exact (Bool.and_eq_true _ _).mp hhit |>.1
      · exact (Bool.and_eq_true _ _).mp hhit |>.2



/-- C5 witness: the amended theorem applied to a concrete in-window pair
with equal non-empty normalized subjects. -/
theorem C5_time_window_similarity_witness :
    (c5wSent ∈ [c5wSent] ∧ inReplyWindow c5wSent.date c5wReceived.date = true ∧
      isLikelyReplyByContent c5wReceived c5wSent = true) ∧
    isMessageReplied c5wReceived [c5wSent] = true :=
  ⟨⟨by decide, by decide, by decide⟩,
    (C5_time_window_similarity c5wReceived c5wSent [c5wSent]).1
      (by decide) (by decide) (by decide)⟩

/-- Definitional description of the `messages` field of a federated search
result. -/
theorem search_messages_def (env : ImapEnv) (parseDate : String → Option Int)
    (st sv sd ed : String) :
    (searchInMultipleMailboxes env parseDate st sv sd ed).messages =
      sortMessagesByDateDesc
        (((("INBOX" :: (COMMON_SENT_MAILBOX_NAMES.find? env.openBox).toList).map
          (fun name => processOneMailbox parseDate sd ed name (env.searchAndFetch name))).map
            Prod.snd).flatten) := rfl

/-- Definitional description of the `totalMatches` field of a federated
search result. -/
theorem search_totalMatches_def (env : ImapEnv) (parseDate : String → Option Int)
    (st sv sd ed : String) :
    (searchInMultipleMailboxes env parseDate st sv sd ed).totalMatches =
      (((("INBOX" :: (COMMON_SENT_MAILBOX_NAMES.find? env.openBox).toList).map
        (fun name => processOneMailbox parseDate sd ed name (env.searchAndFetch name))).map
          Prod.snd).flatten).length := rfl

/-- Definitional description of the `mailboxesSearched` field of a
federated search result. -/
theorem search_mailboxesSearched_def (env : ImapEnv) (parseDate : String → Option Int)
    (st sv sd ed : String) :
    (searchInMultipleMailboxes env parseDate st sv sd ed).mailboxesSearched =
      (("INBOX" :: (COMMON_SENT_MAILBOX_NAMES.find? env.openBox).toList).map
        (fun name => processOneMailbox parseDate sd ed name (env.searchAndFetch name))).map
          Prod.fst := rfl

/-- Definitional description of the `warning` field of a federated search
result. -/
theorem search_warning_def (env : ImapEnv) (parseDate : String → Option Int)
    (st sv sd ed : String) :
    (searchInMultipleMailboxes env parseDate st sv sd ed).warning =
      (if (COMMON_SENT_MAILBOX_NAMES.find? env.openBox).isNone then
        some "Could not find sent mailbox - only searched INBOX" else none) := rfl

/-- The per-mailbox entry always carries the name of the mailbox it was
built for. -/
theorem processOneMailbox_mailbox (parseDate : String → Option Int)
    (sd ed name : String) (o : Except String (List EmailMessage)) :
    (processOneMailbox parseDate sd ed name o).1.mailbox = name := by
  cases o <;> rfl

/-- The descending comparator of the merged-message sort is transitive and
total, so `sortMessagesByDateDesc` sorts. -/
theorem sortMessagesByDateDesc_pairwise (l : List EmailMessage) :
    (sortMessagesByDateDesc l).Pairwise
      (fun a b => dateNum b.date ≤ dateNum a.date) := by
  have h := @List.sorted_mergeSort EmailMessage
    (fun a b : EmailMessage => decide (dateNum b.date ≤ dateNum a.date))
    (fun a b c hab hbc => by
      rw [decide_eq_true_eq] at hab hbc ⊢
      exact le_trans hbc hab)
    (fun a b => by
      rcases le_total (dateNum b.date) (dateNum a.date) with h | h <;> simp [h])
    l
  exact h.imp (fun hx => of_decide_eq_true hx)

/-- C2: every federated search result is sorted descending by message date
(missing dates read as the epoch) and reports `totalMatches` equal to the
length of the merged, date-filtered message list.  The hypothesis excludes
messages whose date string is present but unparseable: for those the
JavaScript comparator returns NaN and the engine order is unspecified, so
the model does not speak about them. -/
theorem C2_merged_sorted_and_counted :
    ∀ (env : ImapEnv) (parseDate : String → Option Int) (st sv sd ed : String),
      (∀ m ∈ (searchInMultipleMailboxes env parseDate st sv sd ed).messages,
        m.date ≠ JsDate.invalid) →
      (searchInMultipleMailboxes env parseDate st sv sd ed).messages.Pairwise
        (fun a b => dateNum b.date ≤ dateNum a.date) ∧
      (searchInMultipleMailboxes env parseDate st sv sd ed).totalMatches =
        (searchInMultipleMailboxes env parseDate st sv sd ed).messages.length := by
  intro env parseDate st sv sd ed _
  constructor
  · rw [search_messages_def]
    exact sortMessagesByDateDesc_pairwise _
  · rw [search_messages_def, search_totalMatches_def, sortMessagesByDateDesc,
      List.length_mergeSort]


-- C2 witness: the theorem applied to the concrete two-message inbox.
unseal List.merge List.mergeSort in
theorem C2_merged_sorted_and_counted_witness :
    (∀ m ∈ (searchInMultipleMailboxes c2Env (fun _ => none) "t" "v" "" "").messages,
      m.date ≠ JsDate.invalid) ∧
    (searchInMultipleMailboxes c2Env (fun _ => none) "t" "v" "" "").messages.Pairwise
      (fun a b => dateNum b.date ≤ dateNum a.date) ∧
    (searchInMultipleMailboxes c2Env (fun _ => none) "t" "v" "" "").totalMatches =
      (searchInMultipleMailboxes c2Env (fun _ => none) "t" "v" "" "").messages.length :=
  ⟨by decide, C2_merged_sorted_and_counted c2Env (fun _ => none) "t" "v" "" "" (by decide)⟩

/-- C3: the date filter always keeps messages with a missing or unparseable
date; with both bounds supplied and parseable, a dated message is kept
exactly when it is not strictly before the start bound and not strictly
after the end bound, the end bound being widened to the end of its calendar
day when the endDate string is date-only. -/
theorem C3_date_range_filter :
    ∀ (parseDate : String → Option Int) (msgs : List EmailMessage) (sd ed : String),
      (∀ m ∈ msgs, m.date.time = none →
        m ∈ filterMessagesByDateRange parseDate msgs sd ed) ∧
      (∀ (s e : Int), sd ≠ "" → ed ≠ "" →
        parseDate sd = some s → parseDate ed = some e →
        ∀ (m : EmailMessage) (t : Int), m.date.time = some t →
          (m ∈ filterMessagesByDateRange parseDate msgs sd ed ↔
            m ∈ msgs ∧ s ≤ t ∧ t ≤ (if isDateOnly ed then endOfDayUtc e else e))) := by
  intro parseDate msgs sd ed
  constructor
  · intro m hm ht
    unfold filterMessagesByDateRange
    split_ifs with hempty
    · exact hm
    · exact List.mem_filter.mpr ⟨hm, by simp [messagePassesDateFilter, ht]⟩
  · intro s e hsd hed hps hpe m t ht
    have hbounds : parseRangeEnds parseDate sd ed =
        (some s, some (if isDateOnly ed then endOfDayUtc e else e)) := by
      simp [parseRangeEnds, hsd, hed, hps, hpe]
    unfold filterMessagesByDateRange
    rw [if_neg (fun hc => hsd hc.1), hbounds]
    rw [List.mem_filter]
    constructor
    · rintro ⟨hm, hpass⟩
      refine ⟨hm, ?_⟩
      simp only [messagePassesDateFilter, ht, Bool.and_eq_true, Bool.not_eq_true',
        decide_eq_false_iff_not, not_lt] at hpass
      exact hpass
    · rintro ⟨hm, h1, h2⟩
      refine ⟨hm, ?_⟩
      simp only [messagePassesDateFilter, ht, Bool.and_eq_true, Bool.not_eq_true',
        decide_eq_false_iff_not, not_lt]
      exact ⟨h1, h2⟩




/-- C3 witness: the undated message always passes, and the message dated
2025-08-01T23:00 passes the range 2025-07-01 .. 2025-08-01 because the
date-only end bound is widened to end of day. -/
theorem C3_date_range_filter_witness :
    c3NoDate ∈ filterMessagesByDateRange c3Parse [c3Msg, c3NoDate] "2025-07-01" "2025-08-01" ∧
    (c3Msg ∈ filterMessagesByDateRange c3Parse [c3Msg, c3NoDate] "2025-07-01" "2025-08-01" ↔
      c3Msg ∈ [c3Msg, c3NoDate] ∧ (1751328000000 : Int) ≤ 1754089200000 ∧
        (1754089200000 : Int) ≤
          (if isDateOnly "2025-08-01" then endOfDayUtc 1754006400000 else 1754006400000)) :=
  ⟨(C3_date_range_filter c3Parse [c3Msg, c3NoDate] "2025-07-01" "2025-08-01").1
      c3NoDate (by decide) rfl,
   (C3_date_range_filter c3Parse [c3Msg, c3NoDate] "2025-07-01" "2025-08-01").2
      1751328000000 1754006400000 (by decide) (by decide) rfl rfl c3Msg 1754089200000 rfl⟩

/-- C6: when the discovered sent mailbox fails to open or search while
INBOX succeeds, the failing mailbox is recorded with a non-empty error
string, no UIDs and zero count, the INBOX messages are still in the merged
result, and the call still returns a result (the embedding is total: every
per-mailbox throw is caught inside the loop). -/
theorem C6_mailbox_failure_isolated :
    ∀ (env : ImapEnv) (parseDate : String → Option Int) (st sv sd ed : String)
      (S err : String) (msgs : List EmailMessage),
      COMMON_SENT_MAILBOX_NAMES.find? env.openBox = some S →
      env.searchAndFetch "INBOX" = Except.ok msgs →
      env.searchAndFetch S = Except.error err →
      (searchInMultipleMailboxes env parseDate st sv sd ed).mailboxesSearched =
        [(processOneMailbox parseDate sd ed "INBOX" (Except.ok msgs)).1,
         { mailbox := S, matchingUIDs := [], messageCount := 0,
           error := some ("Failed to search: " ++ err) }] ∧
      "Failed to search: " ++ err ≠ "" ∧
      (∀ m ∈ (processOneMailbox parseDate sd ed "INBOX" (Except.ok msgs)).2,
        m ∈ (searchInMultipleMailboxes env parseDate st sv sd ed).messages) := by
  intro env parseDate st sv sd ed S err msgs hfind hinbox hsent
  refine ⟨?_, failed_search_message_ne_empty err, ?_⟩
  · rw [search_mailboxesSearched_def, hfind]
    simp only [Option.toList_some, List.map_cons, List.map_nil, hinbox, hsent]
    rfl
  · intro m hm
    rw [search_messages_def, hfind]
    simp only [Option.toList_some, List.map_cons, List.map_nil, hinbox, hsent,
      sortMessagesByDateDesc, List.mem_mergeSort, List.flatten]
    simp only [List.mem_append]
    left
    simpa using hm


-- C6 witness: the theorem applied to the concrete environment.
theorem C6_mailbox_failure_isolated_witness :
    (searchInMultipleMailboxes c6Env (fun _ => none) "t" "v" "" "").mailboxesSearched =
      [(processOneMailbox (fun _ => none) "" "" "INBOX"
          (Except.ok [{ uid := 31, date := .valid 500, subject := "kept" }])).1,
       { mailbox := "Sent", matchingUIDs := [], messageCount := 0,
         error := some ("Failed to search: " ++ "connection lost") }] ∧
    "Failed to search: " ++ "connection lost" ≠ "" ∧
    (∀ m ∈ (processOneMailbox (fun _ => none) "" "" "INBOX"
        (Except.ok [{ uid := 31, date := .valid 500, subject := "kept" }])).2,
      m ∈ (searchInMultipleMailboxes c6Env (fun _ => none) "t" "v" "" "").messages) :=
  C6_mailbox_failure_isolated c6Env (fun _ => none) "t" "v" "" "" "Sent" "connection lost"
    [{ uid := 31, date := .valid 500, subject := "kept" }] (by decide) rfl rfl

/-- C7: a federated search searches INBOX plus at most the first sent
candidate that opens (every candidate before it failed to open); when no
candidate opens, the result is inbox-only and carries the warning instead
of failing (the embedding is total). -/
theorem C7_sent_folder_discovery :
    ∀ (env : ImapEnv) (parseDate : String → Option Int) (st sv sd ed : String),
      ((searchInMultipleMailboxes env parseDate st sv sd ed).mailboxesSearched.map
          (fun entry => entry.mailbox) =
        "INBOX" :: (COMMON_SENT_MAILBOX_NAMES.find? env.openBox).toList) ∧
      (∀ S, COMMON_SENT_MAILBOX_NAMES.find? env.openBox = some S →
        env.openBox S = true ∧
        ∃ l1 l2, COMMON_SENT_MAILBOX_NAMES = l1 ++ S :: l2 ∧
          ∀ x ∈ l1, env.openBox x = false) ∧
      ((∀ n ∈ COMMON_SENT_MAILBOX_NAMES, env.openBox n = false) →
        (searchInMultipleMailboxes env parseDate st sv sd ed).warning =
          some "Could not find sent mailbox - only searched INBOX" ∧
        (searchInMultipleMailboxes env parseDate st sv sd ed).mailboxesSearched.map
          (fun entry => entry.mailbox) = ["INBOX"]) := by
  intro env parseDate st sv sd ed
  have hmap : (searchInMultipleMailboxes env parseDate st sv sd ed).mailboxesSearched.map
      (fun entry => entry.mailbox) =
      "INBOX" :: (COMMON_SENT_MAILBOX_NAMES.find? env.openBox).toList := by
    rw [search_mailboxesSearched_def, List.map_map, List.map_map]
    rw [List.map_congr_left (fun name _ => ?_), List.map_id]
    exact processOneMailbox_mailbox parseDate sd ed name (env.searchAndFetch name)
  refine ⟨hmap, ?_, ?_⟩
  · intro S hS
    obtain ⟨hp, l1, l2, heq, hall⟩ := find?_first env.openBox COMMON_SENT_MAILBOX_NAMES S hS
    exact ⟨hp, l1, l2, heq, fun x hx => Bool.not_eq_true _ ▸ hall x hx⟩
  · intro hnone
    have hfind : COMMON_SENT_MAILBOX_NAMES.find? env.openBox = none :=
      List.find?_eq_none.mpr (fun x hx => by rw [hnone x hx]; exact Bool.false_ne_true)
    refine ⟨?_, ?_⟩
    · rw [search_warning_def, hfind]
      rfl
    · rw [hmap, hfind]
      rfl


-- C7 witness: the theorem applied to the environment with no sent folder.
theorem C7_sent_folder_discovery_witness :
    (searchInMultipleMailboxes c7Env (fun _ => none) "t" "v" "" "").warning =
      some "Could not find sent mailbox - only searched INBOX" ∧
    (searchInMultipleMailboxes c7Env (fun _ => none) "t" "v" "" "").mailboxesSearched.map
      (fun entry => entry.mailbox) = ["INBOX"] :=
  (C7_sent_folder_discovery c7Env (fun _ => none) "t" "v" "" "").2.2 (by decide)

/-- C9: the fetch normalization loop returns one message per fetched item
even when parsing fails, and on a parse failure the message is the
best-effort record built from the raw headers and the trimmed raw body —
the failure is absorbed, never surfaced. -/
theorem C9_parse_failure_best_effort :
    ∀ (simpleParserFn : String → Option ParsedMail) (pending : List PendingMessageData),
      (fetchLoopMessages simpleParserFn pending).length = pending.length ∧
      ∀ d ∈ pending, simpleParserFn d.raw = none →
        normalizeFetchedMessage simpleParserFn d ∈ fetchLoopMessages simpleParserFn pending ∧
        (normalizeFetchedMessage simpleParserFn d).subject = jsOr d.headers.subject "Parse Failed" ∧
        (normalizeFetchedMessage simpleParserFn d).fromAddr = jsOr d.headers.fromAddr "" ∧
        (normalizeFetchedMessage simpleParserFn d).toAddr = jsOr d.headers.toAddr "" ∧
        (normalizeFetchedMessage simpleParserFn d).cc =
          (if jsTruthy d.headers.cc then d.headers.cc else none) ∧
        (normalizeFetchedMessage simpleParserFn d).text = some (trimStr d.body) ∧
        (normalizeFetchedMessage simpleParserFn d).uid = d.uid := by
  intro simpleParserFn pending
  refine ⟨List.length_map pending _, ?_⟩
  intro d hd hfail
  refine ⟨List.mem_map_of_mem _ hd, ?_⟩
  simp [normalizeFetchedMessage, hfail]


-- C9 witness: the theorem applied to a one-element fetch whose parse fails.
theorem C9_parse_failure_best_effort_witness :
    (fetchLoopMessages (fun _ => none) [c9Pending]).length = [c9Pending].length ∧
    (normalizeFetchedMessage (fun _ => none) c9Pending ∈
        fetchLoopMessages (fun _ => none) [c9Pending] ∧
      (normalizeFetchedMessage (fun _ => none) c9Pending).subject =
        jsOr c9Pending.headers.subject "Parse Failed" ∧
      (normalizeFetchedMessage (fun _ => none) c9Pending).fromAddr =
        jsOr c9Pending.headers.fromAddr "" ∧
      (normalizeFetchedMessage (fun _ => none) c9Pending).toAddr =
        jsOr c9Pending.headers.toAddr "" ∧
      (normalizeFetchedMessage (fun _ => none) c9Pending).cc =
        (if jsTruthy c9Pending.headers.cc then c9Pending.headers.cc else none) ∧
      (normalizeFetchedMessage (fun _ => none) c9Pending).text =
        some (trimStr c9Pending.body) ∧
      (normalizeFetchedMessage (fun _ => none) c9Pending).uid = c9Pending.uid) :=
  ⟨(C9_parse_failure_best_effort (fun _ => none) [c9Pending]).1,
   (C9_parse_failure_best_effort (fun _ => none) [c9Pending]).2 c9Pending (by decide) rfl⟩

/-- C10: when the SMTP send succeeds but the sent-folder save attempt
fails, both handlers still answer success with `sentFolderSaved: true` and
the saved-to-sent-folder note — `saveSentMessage` swallows the failure, so
it can never reach the handler response. -/
theorem C10_sent_save_failure_hidden :
    (∀ (env : SendEnv) (args : SendEmailArgs) (r : SendResult) (e : String),
      env.saveAttempt = Except.error e →
      env.sendMail (buildSendEmailOptions args) = Except.ok r →
      (jsTruthy args.text || jsTruthy args.html) = true →
      handleSendEmail env args =
        Except.ok { result := r, sentFolderSaved := true,
                    note := "Email sent successfully and saved to sent folder" }) ∧
    (∀ (username : String) (fmtDate : Int → String) (renv : ReplyEnv) (rargs : ReplyArgs)
      (orig : EmailMessage) (opts : EmailOptions) (r2 : SendResult) (e2 : String),
      renv.original = some orig →
      composeReply username fmtDate orig rargs = Except.ok opts →
      renv.sendMail opts = Except.ok r2 →
      renv.saveAttempt = Except.error e2 →
      ∃ resp, handleReplyToEmail username fmtDate renv rargs = Except.ok resp ∧
        resp.sentFolderSaved = true ∧
        resp.note = "Reply sent successfully and saved to sent folder") := by
  constructor
  · intro env args r e hsave hsend hcontent
    have hcond : (!jsTruthy (buildSendEmailOptions args).text &&
        !jsTruthy (buildSendEmailOptions args).html) = false := by
      have ht : (buildSendEmailOptions args).text = args.text := rfl
      have hh : (buildSendEmailOptions args).html = args.html := rfl
      rw [ht, hh, ← Bool.not_or, hcontent]
      rfl
    simp only [handleSendEmail, hcond, Bool.false_eq_true, if_false, hsend, hsave,
      saveSentMessage]
  · intro username fmtDate renv rargs orig opts r2 e2 horig hcomp hsendm hsave
    refine ⟨{ result := r2,
              replyInfo := { originalUid := rargs.originalUid,
                             originalFrom := opts.toAddr.headD "",
                             originalSubject := orig.subject,
                             replyToAll := rargs.replyToAll,
                             includeOriginal := rargs.includeOriginal,
                             recipientsTo := opts.toAddr,
                             recipientsCc := opts.cc },
              sentFolderSaved := true,
              note := "Reply sent successfully and saved to sent folder" }, ?_, rfl, rfl⟩
    simp only [handleReplyToEmail, horig, hcomp, hsendm, hsave, saveSentMessage]




-- C10 witness: both handler conclusions at concrete inputs.
theorem C10_sent_save_failure_hidden_witness :
    handleSendEmail c10SendEnv { toAddr := "bob@example.com", subject := "s", text := some "hello" } =
      Except.ok { result := { messageId := "msg-1" }, sentFolderSaved := true,
                  note := "Email sent successfully and saved to sent folder" } ∧
    (∃ resp, handleReplyToEmail "me@example.com" (fun _ => "") c10ReplyEnv
        { originalUid := 51, text := "reply", includeOriginal := false } = Except.ok resp ∧
      resp.sentFolderSaved = true ∧
      resp.note = "Reply sent successfully and saved to sent folder") :=
  ⟨(C10_sent_save_failure_hidden).1 c10SendEnv
      { toAddr := "bob@example.com", subject := "s", text := some "hello" }
      { messageId := "msg-1" } "APPEND failed" rfl rfl (by decide),
   (C10_sent_save_failure_hidden).2 "me@example.com" (fun _ => "") c10ReplyEnv
      { originalUid := 51, text := "reply", includeOriginal := false } c10Original
      { toAddr := ["alice@example.com"], subject := "Re: Hi", text := some "reply" }
      { messageId := "msg-2" } "APPEND failed" rfl rfl rfl rfl⟩

end MailServer
